import Mathlib

/-!
Shallow embedding of the LinkedIn-assistant core pipeline:
intent classification (`OpenAIService.classify_intent`), response
formatting (`format_profile_response`, `format_jobs_response`), job
search query construction and result shaping
(`LinkedInServiceHTTP.search_jobs`), and the JOBS dispatcher branch
(`TelegramBot._handle_jobs_request`).

Python dictionary lookups with a default (`d.get(k, v)`) are modelled
with `Option` fields and `Option.getD`; Python truthiness of strings
and lists is modelled as non-emptiness; Python string slicing `s[:n]`
is by code points and is modelled as `List.take` on the character data;
`str.lower` is modelled as a character-wise `Char.toLower` map.
-/

namespace LinkedinAssistant

/-- ASCII apostrophe, used inside message texts. -/
def sq : String := String.singleton (Char.ofNat 39)

/-! ## Data model (pydantic models in `app/openai_service.py`) -/

/-- `JobSearchParams` pydantic model: `role` required, `location` and
`keywords` optional. -/
structure JobSearchParams where
  role : String
  location : Option String
  keywords : Option (List String)
deriving Repr, DecidableEq

/-- `IntentResult` pydantic model: `intent` and `confidence` required,
`job_params` optional (defaults to `None`). Pydantic does not constrain
`intent` to the three-value enum nor `confidence` to `[0,1]`. -/
structure IntentResult where
  intent : String
  confidence : ℚ
  job_params : Option JobSearchParams
deriving Repr, DecidableEq

/-! ## Model-response layer consumed by `classify_intent`

The OpenAI chat call either raises (any transport error), or returns a
message whose `function_call` may be missing or carry an empty
`arguments` string, or carries a JSON `arguments` object.  A parsed
arguments object is a raw dictionary: each expected key may be absent,
and `job_params`, when present, is itself a raw dictionary whose `role`
may be absent (pydantic then raises a validation error, caught by the
enclosing `try`). -/

/-- Raw `job_params` JSON object as found in the function-call
arguments; every field may be missing.  An object with all fields
missing models the empty JSON object `\x7b\x7d`. -/
structure RawJobParams where
  role : Option String
  location : Option String
  keywords : Option (List String)
deriving Repr, DecidableEq

/-- Raw function-call arguments object (`json.loads` result). -/
structure RawResult where
  intent : Option String
  confidence : Option ℚ
  job_params : Option RawJobParams
deriving Repr, DecidableEq

/-- The `arguments` string of a function call: either text that
`json.loads` rejects (raising inside the `try`), or a parsed object. -/
inductive Arguments where
  | invalidJson
  | parsed (r : RawResult)
deriving Repr, DecidableEq

/-- Observable outcome of the chat-completions call as seen by
`classify_intent`. -/
inductive ModelResponse where
  /-- The API call itself raised an exception. -/
  | exn
  /-- Response arrived but `message.function_call` is `None`. -/
  | noCall
  /-- A function call with falsy (empty/`None`) `arguments`. -/
  | emptyArgs
  /-- A function call with a non-empty `arguments` string. -/
  | call (args : Arguments)
deriving Repr, DecidableEq

/-- Constructs `IntentResult(intent="UNKNOWN", confidence=c)`. -/
def unknownResult (c : ℚ) : IntentResult :=
  { intent := "UNKNOWN", confidence := c, job_params := none }

/-- Converting the raw `job_params` value: `result_dict.get("job_params")`
being falsy (absent, `null`, or the empty object) skips the explicit
conversion, after which pydantic validation of `IntentResult` either
accepts the absent value or rejects a role-less object; a truthy object
is converted by `JobSearchParams(**...)`, which requires `role`.
`none` models the validation error raised on a missing `role` (for both
the empty object and a non-empty role-less object the outcome is the
same raised `ValidationError`). -/
def validateJobParams : Option RawJobParams → Option (Option JobSearchParams)
  | none => some none
  | some jp =>
    match jp.role with
    | some r => some (some { role := r, location := jp.location, keywords := jp.keywords })
    | none => none

/-- `IntentResult(**result_dict)`: pydantic requires `intent` and
`confidence`; `none` models the raised `ValidationError`. -/
def buildIntentResult (r : RawResult) : Option IntentResult :=
  match r.intent, r.confidence, validateJobParams r.job_params with
  | some i, some c, some jp => some { intent := i, confidence := c, job_params := jp }
  | _, _, _ => none

/-- `OpenAIService.classify_intent`: the whole call and parse sit in one
`try`; any raised exception yields `UNKNOWN` at confidence `0`; a
response without a usable function call falls back to `UNKNOWN` at
confidence `1/2`. -/
def classify_intent : ModelResponse → IntentResult
  | .exn => unknownResult 0
  | .noCall => unknownResult (1/2)
  | .emptyArgs => unknownResult (1/2)
  | .call .invalidJson => unknownResult 0
  | .call (.parsed r) =>
    match buildIntentResult r with
    | some res => res
    | none => unknownResult 0

example : classify_intent .exn = unknownResult 0 := by decide
example : classify_intent (.call (.parsed
    { intent := some "JOBS", confidence := some (9/10),
      job_params := some { role := some "Python Developer", location := none, keywords := none } }))
    = { intent := "JOBS", confidence := 9/10,
        job_params := some { role := "Python Developer", location := none, keywords := none } } := rfl

/-! ## Python string primitives used by the formatters -/

/-- Python slicing `s[:n]` (by code points). -/
def pySlice (s : String) (n : Nat) : String := String.mk (s.data.take n)

/-- Python `str.lower` modelled character-wise. -/
def pyLower (s : String) : String := String.mk (s.data.map Char.toLower)

/-! ## Job listing data and `format_jobs_response` -/

/-- A job dictionary as consumed by `format_jobs_response`; `none`
models a missing key (`d.get(k, default)` picks the default). -/
structure JobListing where
  title : Option String
  company : Option String
  location : Option String
  type : Option String
  description : Option String
  url : Option String
deriving Repr, DecidableEq

/-- The fixed no-results message of `format_jobs_response`. -/
def noResultsMsg : String :=
  "😔 К сожалению, по вашему запросу не найдено подходящих вакансий. Попробуйте изменить параметры поиска."

/-- Header part: found-count line. -/
def countHeader (n : Nat) : String := "💼 Найдено вакансий: " ++ Nat.repr n ++ "\n"

/-- Note emitted when the list is longer than the limit, stating shown
and total counts. -/
def showingNote (limit n : Nat) : String :=
  "Показываю первые " ++ Nat.repr limit ++ " из " ++ Nat.repr n ++ ":\n"

/-- Trailing hint emitted when the list is longer than the limit. -/
def narrowHint : String :=
  "\n💡 Чтобы увидеть больше вакансий, уточните запрос (например, добавьте локацию или навыки)."

/-- The block of parts appended for one enumerated job (`idx` starts at
1); optional `type`, `description` and `url` lines are emitted only
when the field is present and non-empty (Python truthiness), and the
description is sliced to 150 characters, stripped, and given an
unconditional ellipsis. -/
def jobEntryParts (idx : Nat) (job : JobListing) : List String :=
  [Nat.repr idx ++ ". 🏢 " ++ job.title.getD "Без названия",
   "   Компания: " ++ job.company.getD "Компания не указана",
   "   📍 " ++ job.location.getD "Локация не указана"]
  ++ (if (job.type.getD "") = "" then [] else ["   ⏰ " ++ job.type.getD ""])
  ++ (match job.description with
      | some d => if d = "" then [] else ["   📄 " ++ (pySlice d 150).trim ++ "..."]
      | none => [])
  ++ (if (job.url.getD "") = "" then [] else ["   🔗 " ++ job.url.getD ""])
  ++ [""]

/-- `for idx, job in enumerate(jobs[:limit], 1)` loop body, flattened. -/
def jobEntriesFrom : Nat → List JobListing → List String
  | _, [] => []
  | idx, j :: rest => jobEntryParts idx j ++ jobEntriesFrom (idx + 1) rest

/-- The `response_parts` list built by `format_jobs_response` on a
non-empty job list. -/
def format_jobs_parts (jobs : List JobListing) (limit : Nat) : List String :=
  [countHeader jobs.length]
  ++ (if limit < jobs.length then [showingNote limit jobs.length] else [])
  ++ jobEntriesFrom 1 (jobs.take limit)
  ++ (if limit < jobs.length then [narrowHint] else [])

/-- `OpenAIService.format_jobs_response` (default `limit=5` at the call
site in the bot). -/
def format_jobs_response (jobs : List JobListing) (limit : Nat) : String :=
  if jobs.isEmpty then noResultsMsg
  else String.intercalate "\n" (format_jobs_parts jobs limit)

/-! ## Decimal rendering facts

`toString (idx : Nat)` is `Nat.repr`, whose characters are decimal
digits; the numbered entry headers are the only parts of a jobs
response that begin with a digit, which lets us count rendered entries
without trusting any field content. -/

theorem digitChar_isDigit : ∀ m, m < 10 → (Nat.digitChar m).isDigit = true := by decide

theorem toDigitsCore_isDigit :
    ∀ (fuel n : Nat) (ds : List Char), (∀ c ∈ ds, c.isDigit = true) →
      ∀ c ∈ Nat.toDigitsCore 10 fuel n ds, c.isDigit = true := by
  intro fuel
  induction fuel with
  | zero => intro n ds h c hc; exact h c hc
  | succ f ih =>
    intro n ds h c hc
    rw [Nat.toDigitsCore] at hc
    by_cases h10 : n / 10 = 0
    · simp only [h10, if_pos] at hc
      rcases List.mem_cons.mp hc with h1 | h1
      · exact h1 ▸ digitChar_isDigit _ (Nat.mod_lt _ (by decide))
      · exact h c h1
    · simp only [h10, if_neg, if_false] at hc
      refine ih (n / 10) (Nat.digitChar (n % 10) :: ds) ?_ c hc
      intro c' hc'
      rcases List.mem_cons.mp hc' with h1 | h1
      · exact h1 ▸ digitChar_isDigit _ (Nat.mod_lt _ (by decide))
      · exact h c' h1

theorem toDigitsCore_sub_ne_nil :
    ∀ (fuel n : Nat) (ds : List Char), ds ≠ [] → Nat.toDigitsCore 10 fuel n ds ≠ [] := by
  intro fuel
  induction fuel with
  | zero => intro n ds h; exact h
  | succ f ih =>
    intro n ds h
    rw [Nat.toDigitsCore]
    by_cases h10 : n / 10 = 0
    · simp [h10]
    · simp only [h10, if_neg, if_false]
      exact ih (n / 10) _ (by simp)

theorem toDigits_ne_nil (n : Nat) : Nat.toDigits 10 n ≠ [] := by
  rw [Nat.toDigits, Nat.toDigitsCore]
  by_cases h10 : n / 10 = 0
  · simp [h10]
  · simp only [h10, if_neg, if_false]
    exact toDigitsCore_sub_ne_nil n (n / 10) _ (by simp)

theorem repr_data (n : Nat) : (Nat.repr n).data = Nat.toDigits 10 n := rfl

/-- The decimal rendering of a natural number starts with a digit. -/
theorem repr_head_digit (n : Nat) :
    ∃ c r, (Nat.repr n).data = c :: r ∧ c.isDigit = true := by
  rcases h : (Nat.repr n).data with _ | ⟨c, r⟩
  · exact absurd (repr_data n ▸ h) (toDigits_ne_nil n)
  · refine ⟨c, r, rfl, ?_⟩
    have : c ∈ Nat.toDigits 10 n := by
      rw [← repr_data n, h]; exact List.mem_cons_self c r
    exact toDigitsCore_isDigit (n + 1) n [] (by intro c hc; cases hc) c this

/-- Whether a rendered part begins with a decimal digit. -/
def beginsWithDigit (s : String) : Bool :=
  (s.data.head?.map Char.isDigit).getD false

example : beginsWithDigit "3. 🏢 x" = true := by decide
example : beginsWithDigit "" = false := by decide
example : beginsWithDigit ("   Компания: " ++ "ACME") = false := rfl

theorem bwd_head (s v : String) (c : Char) (h : s.data.head? = some c) :
    beginsWithDigit (s ++ v) = c.isDigit := by
  rw [beginsWithDigit, String.data_append]
  cases hs : s.data with
  | nil => rw [hs] at h; cases h
  | cons a r =>
    rw [hs] at h
    cases h
    rfl

/-- The numbered header lines of a sequence of jobs, enumerated from
`idx`: the expected digit-initial parts of a jobs response. -/
def numberedTitles : Nat → List JobListing → List String
  | _, [] => []
  | idx, j :: rest =>
    (Nat.repr idx ++ ". 🏢 " ++ j.title.getD "Без названия") :: numberedTitles (idx + 1) rest

theorem numberedTitles_length : ∀ (idx : Nat) (l : List JobListing),
    (numberedTitles idx l).length = l.length := by
  intro idx l
  induction l generalizing idx with
  | nil => rfl
  | cons j rest ih => rw [numberedTitles, List.length_cons, List.length_cons, ih]

theorem filter_if_empty (c : Prop) [Decidable c] (s : String)
    (h : beginsWithDigit s = false) :
    (if c then ([] : List String) else [s]).filter beginsWithDigit = [] := by
  split
  · rfl
  · simp [List.filter, h]

theorem jobEntryParts_filter (idx : Nat) (j : JobListing) :
    (jobEntryParts idx j).filter beginsWithDigit
      = [Nat.repr idx ++ ". 🏢 " ++ j.title.getD "Без названия"] := by
  obtain ⟨c, r, hr, hd⟩ := repr_head_digit idx
  have hhead : (Nat.repr idx ++ ". 🏢 ").data.head? = some c := by
    rw [String.data_append, hr]; rfl
  have h1 : beginsWithDigit (Nat.repr idx ++ ". 🏢 " ++ j.title.getD "Без названия") = true := by
    rw [bwd_head _ _ c hhead]; exact hd
  have h2 : beginsWithDigit ("   Компания: " ++ j.company.getD "Компания не указана") = false :=
    bwd_head _ _ ' ' rfl
  have h3 : beginsWithDigit ("   📍 " ++ j.location.getD "Локация не указана") = false :=
    bwd_head _ _ ' ' rfl
  have hemp : beginsWithDigit "" = false := rfl
  have hty : (if j.type.getD "" = "" then ([] : List String)
      else ["   ⏰ " ++ j.type.getD ""]).filter beginsWithDigit = [] :=
    filter_if_empty _ _ (bwd_head _ _ ' ' rfl)
  have hurl : (if j.url.getD "" = "" then ([] : List String)
      else ["   🔗 " ++ j.url.getD ""]).filter beginsWithDigit = [] :=
    filter_if_empty _ _ (bwd_head _ _ ' ' rfl)
  rw [jobEntryParts]
  rcases hde : j.description with _ | d
  · simp [hde, List.filter_append, List.filter_cons, List.filter_nil, h1, h2, h3, hemp, hty, hurl]
  · have hdesc : (if d = "" then ([] : List String)
        else ["   📄 " ++ (pySlice d 150).trim ++ "..."]).filter beginsWithDigit = [] :=
      filter_if_empty _ _ (bwd_head _ _ ' ' rfl)
    simp [hde, List.filter_append, List.filter_cons, List.filter_nil, h1, h2, h3, hemp, hty,
      hurl, hdesc]

theorem jobEntriesFrom_filter : ∀ (idx : Nat) (l : List JobListing),
    (jobEntriesFrom idx l).filter beginsWithDigit = numberedTitles idx l := by
  intro idx l
  induction l generalizing idx with
  | nil => rfl
  | cons j rest ih =>
    rw [jobEntriesFrom, List.filter_append, jobEntryParts_filter, ih, numberedTitles]
    rfl

theorem beginsWithDigit_countHeader (n : Nat) : beginsWithDigit (countHeader n) = false := by
  rw [countHeader]
  exact bwd_head _ _ '💼' (by rw [String.data_append]; rfl)

theorem beginsWithDigit_showingNote (limit n : Nat) :
    beginsWithDigit (showingNote limit n) = false := by
  rw [showingNote]
  exact bwd_head _ _ 'П' (by rw [String.data_append, String.data_append, String.data_append]; rfl)

theorem beginsWithDigit_narrowHint : beginsWithDigit narrowHint = false := by decide

/-! ## Profile data and `format_profile_response` -/

/-- An experience entry dictionary (keys `title`, `companyName`,
`duration`, all read with default `""`). -/
structure ExperienceEntry where
  title : Option String
  companyName : Option String
  duration : Option String
deriving Repr, DecidableEq

/-- An education entry dictionary; the school is read as
`edu.get("schoolName", edu.get("school", ""))`. -/
structure EducationEntry where
  schoolName : Option String
  school : Option String
  degree : Option String
  fieldOfStudy : Option String
deriving Repr, DecidableEq

/-- Profile dictionary as consumed by `format_profile_response`; the
HTTP service always populates all four keys, with `""`/`[]` standing in
for absent data, so plain fields suffice. -/
structure ProfileData where
  headline : String
  summary : String
  experience : List ExperienceEntry
  education : List EducationEntry
deriving Repr, DecidableEq

/-- One experience bullet line. -/
def expLine (exp : ExperienceEntry) : String :=
  "• " ++ exp.title.getD "" ++ " в " ++ exp.companyName.getD ""
    ++ " (" ++ exp.duration.getD "" ++ ")"

/-- One education bullet line (stripped, mirroring `.strip()`). -/
def eduLine (edu : EducationEntry) : String :=
  ("• " ++ edu.schoolName.getD (edu.school.getD "") ++ ": " ++ edu.degree.getD ""
    ++ " " ++ edu.fieldOfStudy.getD "").trim

/-- The `response_parts` list built by `format_profile_response`:
sections are emitted only when their source field is truthy. -/
def format_profile_parts (p : ProfileData) : List String :=
  ["📋 Ваш профиль LinkedIn:\n"]
  ++ (if p.headline = "" then [] else ["🎯 " ++ p.headline ++ "\n"])
  ++ (if p.summary = "" then [] else ["\n📝 О себе:\n" ++ pySlice p.summary 300 ++ "...\n"])
  ++ (if p.experience.isEmpty then []
      else ["\n💼 Опыт работы:"] ++ (p.experience.take 3).map expLine)
  ++ (if p.education.isEmpty then []
      else ["\n\n🎓 Образование:"] ++ (p.education.take 2).map eduLine)

/-- `OpenAIService.format_profile_response`. -/
def format_profile_response (p : ProfileData) : String :=
  String.intercalate "\n" (format_profile_parts p)

/-! ## `LinkedInServiceHTTP.search_jobs` -/

/-- The parts of the natural-language search query assembled by
`search_jobs`: the role part always, a location part when `location` is
truthy (remote-modifier under case-insensitive match with `"remote"`,
geographic filter otherwise), a keywords part when `keywords` is
truthy. -/
def keywordParts (keywords : Option (List String)) : List String :=
  match keywords with
  | none => []
  | some kws =>
    if kws.isEmpty then [] else ["с навыками: " ++ String.intercalate ", " kws]

def build_search_parts (query : String) (location : Option String)
    (keywords : Option (List String)) : List String :=
  ["Найди вакансии для позиции " ++ query]
  ++ (match location with
      | none => []
      | some loc =>
        if loc = "" then []
        else if pyLower loc = "remote" then ["с возможностью удалённой работы"]
        else ["в локации " ++ loc])
  ++ keywordParts keywords

/-- `search_query = " ".join(search_parts)`. -/
def build_search_query (query : String) (location : Option String)
    (keywords : Option (List String)) : String :=
  String.intercalate " " (build_search_parts query location keywords)

/-- Observable outcome of the `analyze-linkedin-chat` HTTP POST:
either an exception (transport error, or a body `json()` cannot parse),
or a status code with the body's optional `reply` text. -/
inductive HttpOutcome where
  | exn
  | response (status : Nat) (reply : Option String)
deriving Repr, DecidableEq

/-- The single synthetic listing wrapping the API reply. -/
def syntheticJob (query : String) (location : Option String) (reply : String) : JobListing :=
  { title := some ("Результаты поиска: " ++ query),
    company := some "LinkedIn",
    location := some (match location with
      | some loc => if loc = "" then "Не указано" else loc
      | none => "Не указано"),
    type := some "Информация из профиля",
    description := some reply,
    url := some "https://www.linkedin.com/jobs/" }

/-- `LinkedInServiceHTTP.search_jobs`: any exception is caught and an
empty list returned; a 200 response with a truthy `reply` yields one
synthetic listing; everything else yields the empty list. -/
def search_jobs (query : String) (location : Option String)
    (keywords : Option (List String)) (http : HttpOutcome) : List JobListing :=
  let _search_query := build_search_query query location keywords
  match http with
  | .exn => []
  | .response status reply =>
    if status = 200 then
      match reply with
      | some r => if r = "" then [] else [syntheticJob query location r]
      | none => []
    else []

/-! ## Dispatcher: `TelegramBot._handle_jobs_request` -/

/-- Observable effects of the JOBS handler: outgoing replies and the
call to the job-search collaborator. -/
inductive BotEffect where
  | reply (text : String)
  | searchCall (query : String) (location : Option String) (keywords : Option (List String))
deriving Repr, DecidableEq

/-- Clarification message sent when `intent_result.job_params` is
falsy. -/
def clarificationMsg : String :=
  "🤔 Не могу понять, какую вакансию вы ищете. Пожалуйста, укажите должность или роль.\n\nНапример: "
    ++ sq ++ "Найди вакансии Python разработчика" ++ sq

/-- `TelegramBot._handle_jobs_request`, with the HTTP outcome of the
collaborator call supplied as an explicit input. -/
def handle_jobs_request (intent_result : IntentResult) (http : HttpOutcome) : List BotEffect :=
  match intent_result.job_params with
  | none => [.reply clarificationMsg]
  | some jp =>
    let searchText := "🔍 Ищу вакансии: " ++ jp.role
      ++ (match jp.location with
          | some loc => if loc = "" then "" else " (" ++ loc ++ ")"
          | none => "")
    let jobs := search_jobs jp.role jp.location jp.keywords http
    [.reply (searchText ++ "..."),
     .searchCall jp.role jp.location jp.keywords,
     .reply (format_jobs_response jobs 5)]

/-! ## Claim theorems -/

/-- C1: `classify_intent` never propagates a lower-level failure: every
exception raised during the model call or during parsing/validation of
its response yields intent `UNKNOWN` at confidence exactly `0`, and a
response without a structured function call (or with empty arguments)
yields intent `UNKNOWN` at confidence exactly `1/2`. -/
theorem classify_intent_failure_policy :
    (classify_intent .exn = { intent := "UNKNOWN", confidence := 0, job_params := none }) ∧
    (classify_intent (.call .invalidJson)
      = { intent := "UNKNOWN", confidence := 0, job_params := none }) ∧
    (∀ r : RawResult, buildIntentResult r = none →
      classify_intent (.call (.parsed r))
        = { intent := "UNKNOWN", confidence := 0, job_params := none }) ∧
    (classify_intent .noCall
      = { intent := "UNKNOWN", confidence := 1/2, job_params := none }) ∧
    (classify_intent .emptyArgs
      = { intent := "UNKNOWN", confidence := 1/2, job_params := none }) := by
  refine ⟨rfl, rfl, ?_, rfl, rfl⟩
  intro r h
  simp [classify_intent, h, unknownResult]

/-- C1 witness: a response whose arguments object lacks the required
keys fails pydantic validation and lands on the `0` sentinel. -/
theorem classify_intent_failure_policy_witness :
    buildIntentResult { intent := none, confidence := none, job_params := none } = none ∧
    classify_intent (.call (.parsed { intent := none, confidence := none, job_params := none }))
      = { intent := "UNKNOWN", confidence := 0, job_params := none } :=
  ⟨rfl, classify_intent_failure_policy.2.2.1 _ rfl⟩

/-- C2 counterexample: `classify_intent` does not gate `job_params` on
the intent being JOBS — a model reply carrying intent `PROFILE`
together with a job-params object is passed through with `job_params`
populated, so a PROFILE result can carry `job_params`. -/
theorem classify_intent_profile_with_job_params :
    (classify_intent (.call (.parsed
        { intent := some "PROFILE", confidence := some (9/10),
          job_params := some { role := some "Python Developer", location := none,
                               keywords := none } }))).intent = "PROFILE" ∧
    (classify_intent (.call (.parsed
        { intent := some "PROFILE", confidence := some (9/10),
          job_params := some { role := some "Python Developer", location := none,
                               keywords := none } }))).job_params
      = some { role := "Python Developer", location := none, keywords := none } :=
  ⟨rfl, rfl⟩

/-- C2 amended: `job_params` is populated iff the model reply parsed
with `intent` and `confidence` present and supplied a `job_params`
object containing a `role` — irrespective of the intent value; a JOBS
result with absent `job_params` is representable. -/
theorem classify_intent_job_params_characterization :
    (∀ m : ModelResponse, (classify_intent m).job_params ≠ none ↔
      ∃ r : RawResult, m = .call (.parsed r) ∧ r.intent ≠ none ∧ r.confidence ≠ none ∧
        ∃ jp : RawJobParams, r.job_params = some jp ∧ jp.role ≠ none) ∧
    (∃ m : ModelResponse, (classify_intent m).intent = "JOBS" ∧
      (classify_intent m).job_params = none) := by
  constructor
  · intro m
    constructor
    · intro h
      rcases m with _ | _ | _ | args
      · exact absurd rfl h
      · exact absurd rfl h
      · exact absurd rfl h
      rcases args with _ | r
      · exact absurd rfl h
      rcases hi : r.intent with _ | i
      · exact absurd (by simp [classify_intent, buildIntentResult, hi, unknownResult]) h
      rcases hc : r.confidence with _ | cf
      · exact absurd (by simp [classify_intent, buildIntentResult, hi, hc, unknownResult]) h
      rcases hjp : r.job_params with _ | jp
      · exact absurd (by
          simp [classify_intent, buildIntentResult, validateJobParams, hi, hc, hjp]) h
      rcases hrole : jp.role with _ | role
      · exact absurd (by
          simp [classify_intent, buildIntentResult, validateJobParams, hi, hc, hjp, hrole,
            unknownResult]) h
      exact ⟨r, rfl, by simp [hi], by simp [hc], jp, hjp, by simp [hrole]⟩
    · rintro ⟨r, rfl, hi, hc, jp, hjp, hrole⟩
      rcases Option.ne_none_iff_exists'.mp hi with ⟨i, hi'⟩
      rcases Option.ne_none_iff_exists'.mp hc with ⟨cf, hc'⟩
      rcases Option.ne_none_iff_exists'.mp hrole with ⟨role, hrole'⟩
      simp [classify_intent, buildIntentResult, validateJobParams, hi', hc', hjp, hrole']
  · exact ⟨.call (.parsed { intent := some "JOBS", confidence := some 1, job_params := none }),
      rfl, rfl⟩

/-- C2 amended witness: a JOBS reply whose params carry a role yields a
result with `job_params` populated. -/
theorem classify_intent_job_params_characterization_witness :
    (classify_intent (.call (.parsed
        { intent := some "JOBS", confidence := some 1,
          job_params := some { role := some "ML Engineer", location := none,
                               keywords := none } }))).job_params ≠ none :=
  (classify_intent_job_params_characterization.1 _).mpr
    ⟨_, rfl, by simp, by simp, _, rfl, by simp⟩

/-- C8: on the empty job list, `format_jobs_response` returns the fixed
no-results message — for every value of `limit` — and that message
contains no digit at all, hence no numbered entry. -/
theorem format_jobs_empty_fixed :
    (∀ limit : Nat, format_jobs_response [] limit = noResultsMsg) ∧
    noResultsMsg.data.any Char.isDigit = false :=
  ⟨fun _ => rfl, by decide⟩

/-- C9: `search_jobs` surfaces no failure structurally — a raised
exception, a non-200 status, a body without a reply, and an empty reply
all produce the empty list. -/
theorem search_jobs_failures_empty (query : String) (location : Option String)
    (keywords : Option (List String)) :
    (search_jobs query location keywords .exn = []) ∧
    (∀ (status : Nat) (reply : Option String), status ≠ 200 →
      search_jobs query location keywords (.response status reply) = []) ∧
    (∀ status : Nat, search_jobs query location keywords (.response status none) = []) ∧
    (∀ status : Nat, search_jobs query location keywords (.response status (some "")) = []) := by
  refine ⟨rfl, ?_, ?_, ?_⟩
  · intro status reply h
    simp [search_jobs, h]
  · intro status
    by_cases h : status = 200 <;> simp [search_jobs, h]
  · intro status
    by_cases h : status = 200 <;> simp [search_jobs, h]

/-- C9 witness: an HTTP 500 with a reply body still comes back as the
empty list. -/
theorem search_jobs_failures_empty_witness :
    search_jobs "Python Developer" none none (.response 500 (some "oops")) = [] :=
  (search_jobs_failures_empty "Python Developer" none none).2.1 500 (some "oops") (by decide)

/-- C6: on a classification with intent JOBS but absent `job_params`,
the dispatcher emits exactly the clarification request and performs no
call to the job-search collaborator. -/
theorem handle_jobs_request_no_params (r : IntentResult) (http : HttpOutcome)
    (h : r.job_params = none) :
    handle_jobs_request r http = [.reply clarificationMsg] ∧
    ∀ e ∈ handle_jobs_request r http,
      ∀ (q : String) (loc : Option String) (kw : Option (List String)),
        e ≠ .searchCall q loc kw := by
  have he : handle_jobs_request r http = [.reply clarificationMsg] := by
    rw [handle_jobs_request, h]
  refine ⟨he, ?_⟩
  rw [he]
  intro e hme q loc kw
  simp at hme
  subst hme
  simp

/-- C6 witness at a concrete JOBS classification lacking params. -/
theorem handle_jobs_request_no_params_witness :
    handle_jobs_request { intent := "JOBS", confidence := 1, job_params := none } .exn
      = [.reply clarificationMsg] :=
  (handle_jobs_request_no_params _ _ rfl).1

/-- C7: query construction treats a location equal to "remote" under
case-insensitive comparison as the remote-work modifier ("Remote" and
"remote" build identical queries), and any other non-empty location as
the geographic filter phrase. -/
theorem search_location_remote_case_insensitive :
    (∀ (q : String) (kw : Option (List String)),
      build_search_query q (some "Remote") kw = build_search_query q (some "remote") kw) ∧
    (∀ (q loc : String) (kw : Option (List String)), loc ≠ "" → pyLower loc = "remote" →
      build_search_parts q (some loc) kw
        = ["Найди вакансии для позиции " ++ q, "с возможностью удалённой работы"]
            ++ keywordParts kw) ∧
    (∀ (q loc : String) (kw : Option (List String)), loc ≠ "" → pyLower loc ≠ "remote" →
      build_search_parts q (some loc) kw
        = ["Найди вакансии для позиции " ++ q, "в локации " ++ loc]
            ++ keywordParts kw) := by
  have hR : pyLower "Remote" = "remote" := rfl
  have hr : pyLower "remote" = "remote" := rfl
  refine ⟨?_, ?_, ?_⟩
  · intro q kw
    rw [build_search_query, build_search_query]
    simp [build_search_parts, hR, hr]
  · intro q loc kw h hl
    simp [build_search_parts, h, hl]
  · intro q loc kw h hl
    simp [build_search_parts, h, hl]

/-- C7 witness: "Remote" maps to the remote-work modifier. -/
theorem search_location_remote_case_insensitive_witness :
    build_search_parts "Data Scientist" (some "Remote") none
      = ["Найди вакансии для позиции " ++ "Data Scientist",
         "с возможностью удалённой работы"] ++ keywordParts none :=
  search_location_remote_case_insensitive.2.1 "Data Scientist" "Remote" none (by decide) rfl

/-- C4: for every profile with a non-empty summary, the response
contains the summary section holding the first 300 characters of the
summary with the ellipsis marker appended unconditionally. -/
theorem format_profile_summary_truncation (p : ProfileData) (h : p.summary ≠ "") :
    ("\n📝 О себе:\n" ++ pySlice p.summary 300 ++ "...\n") ∈ format_profile_parts p ∧
    (pySlice p.summary 300).data = p.summary.data.take 300 ∧
    (pySlice p.summary 300).length ≤ 300 := by
  refine ⟨?_, rfl, ?_⟩
  · simp [format_profile_parts, h]
  · show (p.summary.data.take 300).length ≤ 300
    exact List.length_take_le 300 p.summary.data

/-- A profile whose summary is 500 repetitions of `x`. -/
def profile500 : ProfileData :=
  { headline := "", summary := String.mk (List.replicate 500 'x'),
    experience := [], education := [] }

set_option maxRecDepth 4000 in
/-- C4 witness: a 500-character summary renders as exactly its first
300 characters plus the marker. -/
theorem format_profile_summary_truncation_witness :
    ("\n📝 О себе:\n" ++ String.mk (List.replicate 300 'x') ++ "...\n")
      ∈ format_profile_parts profile500 :=
  (format_profile_summary_truncation profile500 (by decide)).1

/-- A minimal job listing used for concrete list examples. -/
def plainJob : JobListing :=
  { title := some "Engineer", company := none, location := none, type := none,
    description := none, url := none }

/-- C3 counterexample: with seven jobs at limit 5 the last emitted part
is the narrowing hint, which contains no digit at all — so no trailing
note states the shown count or the total count; the count note is
emitted before the entries instead. -/
theorem format_jobs_trailing_note_lacks_counts :
    (format_jobs_parts (List.replicate 7 plainJob) 5).getLast? = some narrowHint ∧
    narrowHint.data.any Char.isDigit = false := by
  exact ⟨by decide, by decide⟩

/-- C3 amended: for every job list longer than `limit`, the response
parts are exactly a count header, then a note stating the shown count
(`limit`) and the total count (both rendered inside it), then the
blocks of the first `limit` jobs numbered from 1 in input order (the
digit-initial parts are exactly those `limit` numbered headers), then
the trailing hint to narrow the query. -/
theorem format_jobs_over_limit (jobs : List JobListing) (limit : Nat)
    (h : limit < jobs.length) :
    format_jobs_parts jobs limit
      = [countHeader jobs.length, showingNote limit jobs.length]
          ++ jobEntriesFrom 1 (jobs.take limit) ++ [narrowHint] ∧
    (format_jobs_parts jobs limit).filter beginsWithDigit
      = numberedTitles 1 (jobs.take limit) ∧
    (numberedTitles 1 (jobs.take limit)).length = limit ∧
    (Nat.repr limit).data <:+: (showingNote limit jobs.length).data ∧
    (Nat.repr jobs.length).data <:+: (showingNote limit jobs.length).data := by
  have heq : format_jobs_parts jobs limit
      = [countHeader jobs.length, showingNote limit jobs.length]
          ++ jobEntriesFrom 1 (jobs.take limit) ++ [narrowHint] := by
    rw [format_jobs_parts, if_pos h, if_pos h]
    simp
  refine ⟨heq, ?_, ?_, ?_, ?_⟩
  · rw [heq, List.filter_append, List.filter_append, jobEntriesFrom_filter]
    simp [List.filter_cons, beginsWithDigit_countHeader, beginsWithDigit_showingNote,
      beginsWithDigit_narrowHint]
  · rw [numberedTitles_length, List.length_take_of_le (le_of_lt h)]
  · exact ⟨"Показываю первые ".data, (" из " ++ Nat.repr jobs.length ++ ":\n").data, by
      simp [showingNote, String.data_append, List.append_assoc]⟩
  · exact ⟨("Показываю первые " ++ Nat.repr limit ++ " из ").data, ":\n".data, by
      simp [showingNote, String.data_append, List.append_assoc]⟩

/-- C3 amended witness: seven jobs at limit 5 render exactly five
numbered entries. -/
theorem format_jobs_over_limit_witness :
    (format_jobs_parts (List.replicate 7 plainJob) 5).filter beginsWithDigit
      = numberedTitles 1 ((List.replicate 7 plainJob).take 5) ∧
    (numberedTitles 1 ((List.replicate 7 plainJob).take 5)).length = 5 :=
  ⟨(format_jobs_over_limit (List.replicate 7 plainJob) 5 (by decide)).2.1,
   (format_jobs_over_limit (List.replicate 7 plainJob) 5 (by decide)).2.2.1⟩

/-! ## Shape analysis of a job entry block -/

theorem mem_if_singleton {c : Prop} [Decidable c] {s y : String}
    (h : s ∈ if c then ([] : List String) else [y]) : s = y ∧ ¬c := by
  split at h
  · cases h
  · exact ⟨List.mem_singleton.mp h, by assumption⟩

theorem getD_empty_split {o : Option String} (h : ¬ o.getD "" = "") :
    ∃ x, o = some x ∧ x ≠ "" := by
  rcases o with _ | x
  · exact absurd rfl h
  · exact ⟨x, rfl, by simpa using h⟩

/-- Every part of a job entry block is one of seven shapes: the three
always-present lines, the three conditional lines (each tied to its
source field being present and non-empty), or the blank separator. -/
theorem jobEntryParts_shapes (idx : Nat) (j : JobListing) :
    ∀ s ∈ jobEntryParts idx j,
      s = Nat.repr idx ++ ". 🏢 " ++ j.title.getD "Без названия" ∨
      s = "   Компания: " ++ j.company.getD "Компания не указана" ∨
      s = "   📍 " ++ j.location.getD "Локация не указана" ∨
      (∃ x, s = "   ⏰ " ++ x ∧ j.type = some x ∧ x ≠ "") ∨
      (∃ d, s = "   📄 " ++ (pySlice d 150).trim ++ "..." ∧ j.description = some d ∧ d ≠ "") ∨
      (∃ x, s = "   🔗 " ++ x ∧ j.url = some x ∧ x ≠ "") ∨
      s = "" := by
  intro s hs
  rw [jobEntryParts] at hs
  rcases List.mem_append.mp hs with hs | hs
  swap
  · exact Or.inr (Or.inr (Or.inr (Or.inr (Or.inr (Or.inr (List.mem_singleton.mp hs))))))
  rcases List.mem_append.mp hs with hs | hs
  swap
  · obtain ⟨hsy, hc⟩ := mem_if_singleton hs
    obtain ⟨x, hx, hxe⟩ := getD_empty_split hc
    refine Or.inr (Or.inr (Or.inr (Or.inr (Or.inr (Or.inl ⟨x, ?_, hx, hxe⟩)))))
    rw [hsy, hx, Option.getD_some]
  rcases List.mem_append.mp hs with hs | hs
  swap
  · rcases hde : j.description with _ | d
    · rw [hde] at hs
      cases hs
    · rw [hde] at hs
      obtain ⟨hsy, hc⟩ := mem_if_singleton hs
      exact Or.inr (Or.inr (Or.inr (Or.inr (Or.inl ⟨d, hsy, rfl, hc⟩))))
  rcases List.mem_append.mp hs with hs | hs
  swap
  · obtain ⟨hsy, hc⟩ := mem_if_singleton hs
    obtain ⟨x, hx, hxe⟩ := getD_empty_split hc
    refine Or.inr (Or.inr (Or.inr (Or.inl ⟨x, ?_, hx, hxe⟩)))
    rw [hsy, hx, Option.getD_some]
  rcases List.mem_cons.mp hs with hs | hs
  · exact Or.inl hs
  rcases List.mem_cons.mp hs with hs | hs
  · exact Or.inr (Or.inl hs)
  rcases List.mem_cons.mp hs with hs | hs
  · exact Or.inr (Or.inr (Or.inl hs))
  cases hs

theorem not_prefix_of_take (pat fixed rest : List Char)
    (hlen : pat.length ≤ fixed.length)
    (hne : fixed.take pat.length ≠ pat) :
    ¬ pat <+: (fixed ++ rest) := by
  intro hp
  rw [List.prefix_iff_eq_take, List.take_append_of_le_length hlen] at hp
  exact hne hp.symm

/-- A pattern starting with a space is never a prefix of a numbered
title line, whose first character is a digit. -/
theorem not_space_prefix_title (idx : Nat) (t : String) (pat p : List Char)
    (hpat : pat = ' ' :: p) :
    ¬ pat <+: (Nat.repr idx ++ ". 🏢 " ++ t).data := by
  obtain ⟨c, r, hr, hd⟩ := repr_head_digit idx
  subst hpat
  rintro ⟨t', ht'⟩
  rw [String.data_append, String.data_append, hr] at ht'
  simp only [List.cons_append, List.append_assoc] at ht'
  injection ht' with h1 _
  rw [← h1] at hd
  exact absurd hd (by decide)

/-- A job listing with every field absent. -/
def emptyJob : JobListing :=
  { title := none, company := none, location := none, type := none,
    description := none, url := none }

/-- C5 counterexample: for a job with all six fields absent, the block
consists only of the title/company/location placeholder lines and the
blank separator — the response contains no placeholder for `type`,
`description`, or `url`; their marker characters do not occur anywhere
in it, so absence of those three fields degrades to omission, not to a
placeholder string. -/
theorem jobEntry_absent_optional_lines_omitted :
    jobEntryParts 1 emptyJob
      = ["1. 🏢 Без названия", "   Компания: Компания не указана",
         "   📍 Локация не указана", ""] ∧
    '⏰' ∉ (format_jobs_response [emptyJob] 5).data ∧
    '📄' ∉ (format_jobs_response [emptyJob] 5).data ∧
    '🔗' ∉ (format_jobs_response [emptyJob] 5).data :=
  ⟨by decide, by decide, by decide, by decide⟩

/-- C5 amended: absence of `title`, `company`, or `location` degrades
to a placeholder string in the rendered block; absence of `type`,
`description`, or `url` causes the corresponding line to be omitted
entirely (no part of the block starts with its marker); rendering is
total and never crashes. -/
theorem jobEntry_field_degradation (idx : Nat) (j : JobListing) :
    (j.title = none → (Nat.repr idx ++ ". 🏢 " ++ "Без названия") ∈ jobEntryParts idx j) ∧
    (j.company = none → ("   Компания: " ++ "Компания не указана") ∈ jobEntryParts idx j) ∧
    (j.location = none → ("   📍 " ++ "Локация не указана") ∈ jobEntryParts idx j) ∧
    (j.type = none → ∀ s ∈ jobEntryParts idx j, ¬ ("   ⏰ ".data <+: s.data)) ∧
    (j.description = none → ∀ s ∈ jobEntryParts idx j, ¬ ("   📄 ".data <+: s.data)) ∧
    (j.url = none → ∀ s ∈ jobEntryParts idx j, ¬ ("   🔗 ".data <+: s.data)) := by
  refine ⟨?_, ?_, ?_, ?_, ?_, ?_⟩
  · intro h
    simp [jobEntryParts, h]
  · intro h
    simp [jobEntryParts, h]
  · intro h
    simp [jobEntryParts, h]
  · intro h s hs
    rcases jobEntryParts_shapes idx j s hs with hsh | hsh | hsh | hsh | hsh | hsh | hsh
    · rw [hsh]
      exact not_space_prefix_title idx _ _ _ rfl
    · rw [hsh, String.data_append]
      exact not_prefix_of_take _ _ _ (by decide) (by decide)
    · rw [hsh, String.data_append]
      exact not_prefix_of_take _ _ _ (by decide) (by decide)
    · obtain ⟨x, _, hx, _⟩ := hsh
      rw [h] at hx
      cases hx
    · obtain ⟨d, hsy, _, _⟩ := hsh
      rw [hsy, String.data_append, String.data_append, List.append_assoc]
      exact not_prefix_of_take _ _ _ (by decide) (by decide)
    · obtain ⟨x, hsy, _, _⟩ := hsh
      rw [hsy, String.data_append]
      exact not_prefix_of_take _ _ _ (by decide) (by decide)
    · rw [hsh]
      decide
  · intro h s hs
    rcases jobEntryParts_shapes idx j s hs with hsh | hsh | hsh | hsh | hsh | hsh | hsh
    · rw [hsh]
      exact not_space_prefix_title idx _ _ _ rfl
    · rw [hsh, String.data_append]
      exact not_prefix_of_take _ _ _ (by decide) (by decide)
    · rw [hsh, String.data_append]
      exact not_prefix_of_take _ _ _ (by decide) (by decide)
    · obtain ⟨x, hsy, _, _⟩ := hsh
      rw [hsy, String.data_append]
      exact not_prefix_of_take _ _ _ (by decide) (by decide)
    · obtain ⟨d, _, hd, _⟩ := hsh
      rw [h] at hd
      cases hd
    · obtain ⟨x, hsy, _, _⟩ := hsh
      rw [hsy, String.data_append]
      exact not_prefix_of_take _ _ _ (by decide) (by decide)
    · rw [hsh]
      decide
  · intro h s hs
    rcases jobEntryParts_shapes idx j s hs with hsh | hsh | hsh | hsh | hsh | hsh | hsh
    · rw [hsh]
      exact not_space_prefix_title idx _ _ _ rfl
    · rw [hsh, String.data_append]
      exact not_prefix_of_take _ _ _ (by decide) (by decide)
    · rw [hsh, String.data_append]
      exact not_prefix_of_take _ _ _ (by decide) (by decide)
    · obtain ⟨x, hsy, _, _⟩ := hsh
      rw [hsy, String.data_append]
      exact not_prefix_of_take _ _ _ (by decide) (by decide)
    · obtain ⟨d, hsy, _, _⟩ := hsh
      rw [hsy, String.data_append, String.data_append, List.append_assoc]
      exact not_prefix_of_take _ _ _ (by decide) (by decide)
    · obtain ⟨x, _, hx, _⟩ := hsh
      rw [h] at hx
      cases hx
    · rw [hsh]
      decide

/-- C5 amended witness: the all-absent job at index 1. -/
theorem jobEntry_field_degradation_witness :
    (Nat.repr 1 ++ ". 🏢 " ++ "Без названия") ∈ jobEntryParts 1 emptyJob ∧
    (∀ s ∈ jobEntryParts 1 emptyJob, ¬ ("   ⏰ ".data <+: s.data)) :=
  ⟨(jobEntry_field_degradation 1 emptyJob).1 rfl,
   (jobEntry_field_degradation 1 emptyJob).2.2.2.1 rfl⟩

/-! ## No note or hint among the entry parts -/

theorem countHeader_head (n : Nat) : (countHeader n).data.head? = some '💼' := by
  rw [countHeader, String.data_append, String.data_append]
  rfl

theorem showingNote_head (limit n : Nat) :
    (showingNote limit n).data.head? = some 'П' := by
  rw [showingNote, String.data_append, String.data_append, String.data_append]
  rfl

theorem narrowHint_head : narrowHint.data.head? = some '\n' := by decide

/-- No string whose first character is `П` or a newline occurs in a job
entry block. -/
theorem jobEntryParts_no_note (idx : Nat) (j : JobListing) (x : String)
    (hx : x.data.head? = some 'П' ∨ x.data.head? = some '\n') :
    x ∉ jobEntryParts idx j := by
  intro hmem
  rcases jobEntryParts_shapes idx j x hmem with h | h | h | h | h | h | h
  · obtain ⟨c, r, hr, hd⟩ := repr_head_digit idx
    have hh : x.data.head? = some c := by
      rw [h, String.data_append, String.data_append, hr]
      rfl
    rcases hx with hx | hx <;> rw [hh] at hx <;> injection hx with hx <;>
      rw [hx] at hd <;> exact absurd hd (by decide)
  · have hh : x.data.head? = some ' ' := by
      rw [h, String.data_append]
      rfl
    rcases hx with hx | hx <;> rw [hh] at hx <;> exact absurd hx (by decide)
  · have hh : x.data.head? = some ' ' := by
      rw [h, String.data_append]
      rfl
    rcases hx with hx | hx <;> rw [hh] at hx <;> exact absurd hx (by decide)
  · obtain ⟨y, hy, _, _⟩ := h
    have hh : x.data.head? = some ' ' := by
      rw [hy, String.data_append]
      rfl
    rcases hx with hx | hx <;> rw [hh] at hx <;> exact absurd hx (by decide)
  · obtain ⟨d, hy, _, _⟩ := h
    have hh : x.data.head? = some ' ' := by
      rw [hy, String.data_append, String.data_append]
      rfl
    rcases hx with hx | hx <;> rw [hh] at hx <;> exact absurd hx (by decide)
  · obtain ⟨y, hy, _, _⟩ := h
    have hh : x.data.head? = some ' ' := by
      rw [hy, String.data_append]
      rfl
    rcases hx with hx | hx <;> rw [hh] at hx <;> exact absurd hx (by decide)
  · have hh : x.data.head? = none := by
      rw [h]
      rfl
    rcases hx with hx | hx <;> rw [hh] at hx <;> exact absurd hx (by decide)

theorem jobEntriesFrom_no_note (x : String)
    (hx : x.data.head? = some 'П' ∨ x.data.head? = some '\n') :
    ∀ (idx : Nat) (l : List JobListing), x ∉ jobEntriesFrom idx l := by
  intro idx l
  induction l generalizing idx with
  | nil => simp [jobEntriesFrom]
  | cons j rest ih =>
    rw [jobEntriesFrom]
    intro hmem
    rcases List.mem_append.mp hmem with h | h
    · exact jobEntryParts_no_note idx j x hx h
    · exact ih (idx + 1) h

/-- C10: `search_jobs` returns at most one listing for every input, so
at the bot's call site (`limit = 5`) the more-than-limit branch of
`format_jobs_response` is unreachable: the parts are just the count
header followed by the entry blocks, and neither the showing-note nor
the narrowing hint ever occurs among them. -/
theorem search_jobs_single_result (query : String) (location : Option String)
    (keywords : Option (List String)) (http : HttpOutcome) :
    (search_jobs query location keywords http).length ≤ 1 ∧
    format_jobs_parts (search_jobs query location keywords http) 5
      = countHeader (search_jobs query location keywords http).length
          :: jobEntriesFrom 1 (search_jobs query location keywords http) ∧
    (∀ limit n : Nat,
      showingNote limit n ∉ format_jobs_parts (search_jobs query location keywords http) 5) ∧
    narrowHint ∉ format_jobs_parts (search_jobs query location keywords http) 5 := by
  have hlen : (search_jobs query location keywords http).length ≤ 1 := by
    rcases http with _ | ⟨status, reply⟩
    · simp [search_jobs]
    · by_cases hst : status = 200
      · rcases reply with _ | r
        · simp [search_jobs, hst]
        · by_cases hr : r = "" <;> simp [search_jobs, hst, hr]
      · simp [search_jobs, hst]
  have hnot : ¬ 5 < (search_jobs query location keywords http).length := by omega
  have htake : (search_jobs query location keywords http).take 5
      = search_jobs query location keywords http :=
    List.take_of_length_le (by omega)
  have heq : format_jobs_parts (search_jobs query location keywords http) 5
      = countHeader (search_jobs query location keywords http).length
          :: jobEntriesFrom 1 (search_jobs query location keywords http) := by
    rw [format_jobs_parts, if_neg hnot, if_neg hnot, htake]
    simp
  refine ⟨hlen, heq, ?_, ?_⟩
  · intro limit n hmem
    rw [heq] at hmem
    rcases List.mem_cons.mp hmem with hmem | hmem
    · have h1 := showingNote_head limit n
      rw [hmem, countHeader_head] at h1
      exact absurd h1 (by decide)
    · exact jobEntriesFrom_no_note _ (Or.inl (showingNote_head limit n)) 1 _ hmem
  · intro hmem
    rw [heq] at hmem
    rcases List.mem_cons.mp hmem with hmem | hmem
    · have h1 := narrowHint_head
      rw [hmem, countHeader_head] at h1
      exact absurd h1 (by decide)
    · exact jobEntriesFrom_no_note _ (Or.inr narrowHint_head) 1 _ hmem

end LinkedinAssistant
